import Mathlib

/-!
Verification development for the gh-repolint compliance engine.

The Go sources are shallowly embedded: Go pointer-valued optional fields
become `Option`, Go nil slices become `Option (List _)` (none = nil slice,
some [] = allocated empty slice), Go `string` stays `String`, Go errors are
`String` payloads carried in `Except`/`Option`, and effectful calls (HTTP
transport, filesystem) become explicit function parameters standing for the
response the call would produce.  Durations in the retry code are modelled
in whole seconds (the Go constants `initialBackoff = 1 * time.Second` and
`maxBackoffDuration = 1 * time.Minute` are 1 and 60; every arithmetic
operation of the loop is scale-invariant, so the second-level model is a
faithful rescaling of the nanosecond-level `time.Duration` arithmetic).
-/

namespace Repolint

/-! ## Configuration data model (config package) -/

/-- MergeConfig defines merge-related settings (config/merger.go types). -/
structure MergeConfig where
  AllowMergeCommit : Option Bool := none
  AllowSquashMerge : Option Bool := none
  AllowRebaseMerge : Option Bool := none
  AllowAutoMerge : Option Bool := none
  DeleteBranchOnMerge : Option Bool := none
  AlwaysSuggestUpdatingPullRequestBranches : Option Bool := none
  deriving Repr, DecidableEq

/-- DependabotSettingsConfig defines Dependabot-related settings. -/
structure DependabotSettingsConfig where
  Alerts : Option Bool := none
  SecurityUpdates : Option Bool := none
  deriving Repr, DecidableEq

/-- SettingsConfig defines repository settings to validate. -/
structure SettingsConfig where
  Issues : Option Bool := none
  Wiki : Option Bool := none
  Projects : Option Bool := none
  Discussions : Option Bool := none
  AllowActionsToApprovePRs : Option Bool := none
  PullRequestCreationPolicy : String := ""
  Merge : Option MergeConfig := none
  DefaultBranch : String := ""
  Dependabot : Option DependabotSettingsConfig := none
  deriving Repr, DecidableEq

/-- WorkflowConfig defines a required workflow file. -/
structure WorkflowConfig where
  Path : String := ""
  Reference : String := ""
  deriving Repr, DecidableEq

/-- ActionsConfig defines GitHub Actions workflow validation settings.
`RequiredWorkflows` is a Go slice: `none` is the nil slice. -/
structure ActionsConfig where
  RequirePinnedVersions : Option Bool := none
  RequiredWorkflows : Option (List WorkflowConfig) := none
  RequireTimeout : Option Bool := none
  MaxTimeoutMinutes : Option Int := none
  RequireMinimalPermissions : Option Bool := none
  deriving Repr, DecidableEq

/-- RulesetConfig defines a repository ruleset configuration. -/
structure RulesetConfig where
  Name : String := ""
  Reference : String := ""
  deriving Repr, DecidableEq

/-- FileConfig defines a file that should match a reference. -/
structure FileConfig where
  Name : String := ""
  Reference : String := ""
  deriving Repr, DecidableEq

/-- ChecksConfig contains all check configurations.  The two slice fields
are Go slices (`none` = nil). -/
structure ChecksConfig where
  Settings : Option SettingsConfig := none
  Actions : Option ActionsConfig := none
  Rulesets : Option (List RulesetConfig) := none
  Files : Option (List FileConfig) := none
  deriving Repr, DecidableEq

/-- Config represents the complete repolint configuration. -/
structure Config where
  Checks : ChecksConfig
  deriving Repr, DecidableEq

/-! ## Merger (config/merger.go) -/

/-- mergeBoolPtr: `if repo != nil { return repo }; return owner`. -/
def mergeBoolPtr (owner repo : Option Bool) : Option Bool :=
  if repo.isSome then repo else owner

/-- mergeIntPtr: `if repo != nil { return repo }; return owner`. -/
def mergeIntPtr (owner repo : Option Int) : Option Int :=
  if repo.isSome then repo else owner

/-- mergeString: `if repo != "" { return repo }; return owner`. -/
def mergeString (owner repo : String) : String :=
  if repo ≠ "" then repo else owner

/-- mergeMergeConfig merges two optional MergeConfig pointers. -/
def mergeMergeConfig (owner repo : Option MergeConfig) : Option MergeConfig :=
  match owner, repo with
  | none, none => none
  | none, some r => some r
  | some o, none => some o
  | some o, some r =>
    some {
      AllowMergeCommit := mergeBoolPtr o.AllowMergeCommit r.AllowMergeCommit
      AllowSquashMerge := mergeBoolPtr o.AllowSquashMerge r.AllowSquashMerge
      AllowRebaseMerge := mergeBoolPtr o.AllowRebaseMerge r.AllowRebaseMerge
      AllowAutoMerge := mergeBoolPtr o.AllowAutoMerge r.AllowAutoMerge
      DeleteBranchOnMerge := mergeBoolPtr o.DeleteBranchOnMerge r.DeleteBranchOnMerge
      AlwaysSuggestUpdatingPullRequestBranches :=
        mergeBoolPtr o.AlwaysSuggestUpdatingPullRequestBranches
          r.AlwaysSuggestUpdatingPullRequestBranches }

/-- mergeDependabotSettingsConfig merges two optional Dependabot settings. -/
def mergeDependabotSettingsConfig (owner repo : Option DependabotSettingsConfig) :
    Option DependabotSettingsConfig :=
  match owner, repo with
  | none, none => none
  | none, some r => some r
  | some o, none => some o
  | some o, some r =>
    some {
      Alerts := mergeBoolPtr o.Alerts r.Alerts
      SecurityUpdates := mergeBoolPtr o.SecurityUpdates r.SecurityUpdates }

/-- mergeSettingsConfig merges two optional SettingsConfig pointers.
The Go composite literal assigns Issues, Wiki, Projects, Discussions,
AllowActionsToApprovePRs, DefaultBranch, Merge and Dependabot, and does NOT
assign PullRequestCreationPolicy, which therefore takes the Go zero value
`""` in the merged result. -/
def mergeSettingsConfig (owner repo : Option SettingsConfig) : Option SettingsConfig :=
  match owner, repo with
  | none, none => none
  | none, some r => some r
  | some o, none => some o
  | some o, some r =>
    some {
      Issues := mergeBoolPtr o.Issues r.Issues
      Wiki := mergeBoolPtr o.Wiki r.Wiki
      Projects := mergeBoolPtr o.Projects r.Projects
      Discussions := mergeBoolPtr o.Discussions r.Discussions
      AllowActionsToApprovePRs :=
        mergeBoolPtr o.AllowActionsToApprovePRs r.AllowActionsToApprovePRs
      PullRequestCreationPolicy := ""
      DefaultBranch := mergeString o.DefaultBranch r.DefaultBranch
      Merge := mergeMergeConfig o.Merge r.Merge
      Dependabot := mergeDependabotSettingsConfig o.Dependabot r.Dependabot }

/-- mergeActionsConfig merges two optional ActionsConfig pointers; the
RequiredWorkflows array is replaced entirely by the repo side when non-nil. -/
def mergeActionsConfig (owner repo : Option ActionsConfig) : Option ActionsConfig :=
  match owner, repo with
  | none, none => none
  | none, some r => some r
  | some o, none => some o
  | some o, some r =>
    some {
      RequirePinnedVersions := mergeBoolPtr o.RequirePinnedVersions r.RequirePinnedVersions
      RequireTimeout := mergeBoolPtr o.RequireTimeout r.RequireTimeout
      MaxTimeoutMinutes := mergeIntPtr o.MaxTimeoutMinutes r.MaxTimeoutMinutes
      RequireMinimalPermissions :=
        mergeBoolPtr o.RequireMinimalPermissions r.RequireMinimalPermissions
      RequiredWorkflows :=
        if r.RequiredWorkflows.isSome then r.RequiredWorkflows else o.RequiredWorkflows }

/-- mergeRulesets: arrays, repo replaces entirely. -/
def mergeRulesets (owner repo : Option (List RulesetConfig)) : Option (List RulesetConfig) :=
  if repo.isSome then repo else owner

/-- mergeFiles: arrays, repo replaces entirely. -/
def mergeFiles (owner repo : Option (List FileConfig)) : Option (List FileConfig) :=
  if repo.isSome then repo else owner

/-- MergeConfigs merges owner and repo configs; repo config takes precedence. -/
def MergeConfigs (owner repo : Option Config) : Option Config :=
  match owner, repo with
  | none, none => none
  | none, some r => some r
  | some o, none => some o
  | some o, some r =>
    some {
      Checks := {
        Settings := mergeSettingsConfig o.Checks.Settings r.Checks.Settings
        Actions := mergeActionsConfig o.Checks.Actions r.Checks.Actions
        Rulesets := mergeRulesets o.Checks.Rulesets r.Checks.Rulesets
        Files := mergeFiles o.Checks.Files r.Checks.Files } }

/-! Field accessors used to state merge properties.  Each reads a field
through the chain of possibly-nil pointers, yielding the Go view "the value
of this field on this side" (`none` when any pointer on the way is nil). -/

def configRulesets (c : Option Config) : Option (List RulesetConfig) :=
  match c with
  | none => none
  | some c => c.Checks.Rulesets

def configFiles (c : Option Config) : Option (List FileConfig) :=
  match c with
  | none => none
  | some c => c.Checks.Files

def configRequiredWorkflows (c : Option Config) : Option (List WorkflowConfig) :=
  match c with
  | none => none
  | some c =>
    match c.Checks.Actions with
    | none => none
    | some a => a.RequiredWorkflows

def configIssues (c : Option Config) : Option Bool :=
  match c with
  | none => none
  | some c =>
    match c.Checks.Settings with
    | none => none
    | some s => s.Issues

def configWiki (c : Option Config) : Option Bool :=
  match c with
  | none => none
  | some c =>
    match c.Checks.Settings with
    | none => none
    | some s => s.Wiki

def configPullRequestCreationPolicy (c : Option Config) : String :=
  match c with
  | none => ""
  | some c =>
    match c.Checks.Settings with
    | none => ""
    | some s => s.PullRequestCreationPolicy

/-! ## C1 / C2 theorems -/

/-- Org-scope settings for the C1 failing input: `issues: true, wiki: false`,
`pull_request_creation_policy` unset. -/
def ownerSettingsC1 : SettingsConfig :=
  { Issues := some true, Wiki := some false }

/-- Repo-scope settings for the C1 failing input: `issues: false` and
`pull_request_creation_policy: "internal-only"`. -/
def repoSettingsC1 : SettingsConfig :=
  { Issues := some false, PullRequestCreationPolicy := "internal-only" }

/-- Org-scope config for the C1 failing input. -/
def ownerConfigC1 : Config := { Checks := { Settings := some ownerSettingsC1 } }

/-- Repo-scope config for the C1 failing input. -/
def repoConfigC1 : Config := { Checks := { Settings := some repoSettingsC1 } }

/-- C1: the claim says every optional scalar field — boolean pointer, int
pointer, or string — of the merged configuration equals the repo-side value
whenever the repo side is set.  The code violates this for the string field
`pull_request_creation_policy`: `mergeSettingsConfig` omits the field from
its composite literal, so the merged value is always the zero value `""`.
Here the repo side sets it to "internal-only" (and `issues` to `false`),
the org side has it unset (and `issues := true`, `wiki := false`): the
bool fields merge as claimed, but the string field is dropped instead of
taking the repo value. -/
theorem mergeConfigs_drops_pullRequestCreationPolicy :
    (configPullRequestCreationPolicy (MergeConfigs (some ownerConfigC1) (some repoConfigC1)) = ""
      ∧ configPullRequestCreationPolicy (some repoConfigC1) = "internal-only") ∧
    configIssues (MergeConfigs (some ownerConfigC1) (some repoConfigC1)) = some false ∧
    configWiki (MergeConfigs (some ownerConfigC1) (some repoConfigC1)) = some false := by
  refine ⟨⟨?_, ?_⟩, ?_, ?_⟩ <;> decide

/-- C2: every array-valued field (rulesets, files, required-workflows) of
the merged configuration is exactly the repo-side array whenever the
repo-side array is non-nil, and the org-side array otherwise — for every
pair of policy documents, with no element-wise merge or concatenation. -/
theorem mergeConfigs_arrays_atomic (owner repo : Option Config) :
    configRulesets (MergeConfigs owner repo)
      = (if (configRulesets repo).isSome then configRulesets repo else configRulesets owner) ∧
    configFiles (MergeConfigs owner repo)
      = (if (configFiles repo).isSome then configFiles repo else configFiles owner) ∧
    configRequiredWorkflows (MergeConfigs owner repo)
      = (if (configRequiredWorkflows repo).isSome then configRequiredWorkflows repo
         else configRequiredWorkflows owner) := by
  refine ⟨?_, ?_, ?_⟩
  · cases owner with
    | none =>
      cases repo with
      | none => rfl
      | some r =>
        simp only [MergeConfigs, configRulesets]
        cases h : r.Checks.Rulesets <;> simp [h]
    | some o =>
      cases repo with
      | none => simp [MergeConfigs, configRulesets]
      | some r =>
        simp only [MergeConfigs, configRulesets, mergeRulesets]
  · cases owner with
    | none =>
      cases repo with
      | none => rfl
      | some r =>
        simp only [MergeConfigs, configFiles]
        cases h : r.Checks.Files <;> simp [h]
    | some o =>
      cases repo with
      | none => simp [MergeConfigs, configFiles]
      | some r =>
        simp only [MergeConfigs, configFiles, mergeFiles]
  · cases owner with
    | none =>
      cases repo with
      | none => rfl
      | some r =>
        simp only [MergeConfigs, configRequiredWorkflows]
        cases hr : r.Checks.Actions with
        | none => simp
        | some a => cases h : a.RequiredWorkflows <;> simp [h]
    | some o =>
      cases repo with
      | none => simp [MergeConfigs, configRequiredWorkflows]
      | some r =>
        simp only [MergeConfigs, configRequiredWorkflows, mergeActionsConfig]
        cases ho : o.Checks.Actions with
        | none =>
          cases hr : r.Checks.Actions with
          | none => simp
          | some a => cases h : a.RequiredWorkflows <;> simp [h]
        | some a =>
          cases hr : r.Checks.Actions with
          | none => simp
          | some b => cases h : b.RequiredWorkflows <;> simp [h]

/-! ## GitHub API types (github/types.go) -/

/-- Repository represents a GitHub repository. -/
structure Repository where
  Name : String := ""
  FullName : String := ""
  DefaultBranch : String := ""
  Archived : Bool := false
  HasIssues : Bool := false
  HasWiki : Bool := false
  HasProjects : Bool := false
  HasDiscussions : Bool := false
  PullRequestCreationPolicy : String := ""
  AllowMergeCommit : Bool := false
  AllowSquashMerge : Bool := false
  AllowRebaseMerge : Bool := false
  AllowAutoMerge : Bool := false
  DeleteBranchOnMerge : Bool := false
  AllowUpdateBranch : Bool := false
  deriving Repr, DecidableEq

/-- WorkflowPermissions represents workflow permissions settings. -/
structure WorkflowPermissions where
  DefaultWorkflowPermissions : String := ""
  CanApprovePullRequestReviews : Bool := false
  deriving Repr, DecidableEq

/-- BypassActor represents an actor that can bypass the ruleset. -/
structure BypassActor where
  ActorID : Int := 0
  ActorType : String := ""
  BypassMode : String := ""
  deriving Repr, DecidableEq

/-- RefNameCondition represents branch/tag conditions. -/
structure RefNameCondition where
  Include : List String := []
  Exclude : List String := []
  deriving Repr, DecidableEq

/-- RulesetConditions represents the conditions for a ruleset. -/
structure RulesetConditions where
  RefName : Option RefNameCondition := none
  deriving Repr, DecidableEq

/-- RulesetRule represents a single rule in a ruleset.  The Go field
`Parameters map[string]any` is modelled as an optional association list of
string keys to string-rendered JSON values (`none` = nil map); Go field
`Type` is written `typ`. -/
structure RulesetRule where
  typ : String := ""
  Parameters : Option (List (String × String)) := none
  deriving Repr, DecidableEq

/-- Ruleset represents a GitHub repository ruleset. -/
structure Ruleset where
  ID : Int := 0
  Name : String := ""
  Target : String := ""
  Enforcement : String := ""
  Conditions : Option RulesetConditions := none
  Rules : List RulesetRule := []
  BypassActors : List BypassActor := []
  deriving Repr, DecidableEq

/-- FileContent represents file content from GitHub API (the fields the
client uses; Go field `Type` is written `typ`). -/
structure FileContent where
  typ : String := ""
  Encoding : String := ""
  Size : Int := 0
  Name : String := ""
  Path : String := ""
  Content : String := ""
  SHA : String := ""
  deriving Repr, DecidableEq

/-- AutomatedSecurityFixes represents the status of automated security
fixes. -/
structure AutomatedSecurityFixes where
  Enabled : Bool := false
  Paused : Bool := false
  deriving Repr, DecidableEq

/-- RepoUpdateRequest represents a request to update repository settings. -/
structure RepoUpdateRequest where
  HasIssues : Option Bool := none
  HasWiki : Option Bool := none
  HasProjects : Option Bool := none
  HasDiscussions : Option Bool := none
  PullRequestCreationPolicy : Option String := none
  AllowMergeCommit : Option Bool := none
  AllowSquashMerge : Option Bool := none
  AllowRebaseMerge : Option Bool := none
  AllowAutoMerge : Option Bool := none
  DeleteBranchOnMerge : Option Bool := none
  AllowUpdateBranch : Option Bool := none
  deriving Repr, DecidableEq

/-! ## Client cache model (github/files.go)

The Go cache is `map[string]any`; the value side is modelled by the sum
`CacheVal` (the type cases the read operations assert on), and the map by
an association list whose `setCache` prepends (first match wins, so the
newest binding shadows older ones, matching map assignment).  Go `[]byte`
values are modelled as `List Nat`.  Each convenience operation takes, in
place of the transport, the typed response `doWithRetry` would decode for
it, and returns the operation result, the cache after the call, and whether
a network request was issued. -/

inductive CacheVal where
  | repoVal (r : Repository)
  | rulesetsVal (l : List Ruleset)
  | rulesetVal (r : Ruleset)
  | bytesVal (b : List Nat)
  deriving Repr, DecidableEq

def Cache := List (String × CacheVal)

/-- getFromCache: map lookup (nil when the key is absent). -/
def getFromCache (c : Cache) (key : String) : Option CacheVal :=
  match c with
  | [] => none
  | (k, v) :: rest => if k = key then some v else getFromCache rest key

/-- setCache: map assignment. -/
def setCache (c : Cache) (key : String) (v : CacheVal) : Cache :=
  (key, v) :: c

/-- Cache key of GetRepository: `fmt.Sprintf("repo:%s/%s", owner, repo)`. -/
def repoCacheKey (owner repo : String) : String :=
  "repo:" ++ owner ++ "/" ++ repo

/-- GetRepository fetches repository information, consulting the cache
first and populating it on success (an archived repository is an error and
is not cached). -/
def GetRepository (owner repo : String) (cache : Cache)
    (resp : Except String Repository) :
    Except String Repository × Cache × Bool :=
  let cacheKey := repoCacheKey owner repo
  match getFromCache cache cacheKey with
  | some (.repoVal r) => (.ok r, cache, false)
  | _ =>
    match resp with
    | .error e => (.error e, cache, true)
    | .ok r =>
      if r.Archived then
        (.error ("repository " ++ owner ++ "/" ++ repo ++ " is archived"), cache, true)
      else
        (.ok r, setCache cache cacheKey (.repoVal r), true)

/-- GetWorkflowPermissions fetches workflow permissions for the repository;
the Go function body performs the request directly, with no cache read and
no cache write. -/
def GetWorkflowPermissions (owner repo : String) (cache : Cache)
    (resp : Except String WorkflowPermissions) :
    Except String WorkflowPermissions × Cache × Bool :=
  (resp, cache, true)

/-- Cache key of GetRulesets. -/
def rulesetsCacheKey (owner repo : String) : String :=
  "rulesets:" ++ owner ++ "/" ++ repo

/-- GetRulesets fetches repository rulesets with cache consult/populate. -/
def GetRulesets (owner repo : String) (cache : Cache)
    (resp : Except String (List Ruleset)) :
    Except String (List Ruleset) × Cache × Bool :=
  let cacheKey := rulesetsCacheKey owner repo
  match getFromCache cache cacheKey with
  | some (.rulesetsVal l) => (.ok l, cache, false)
  | _ =>
    match resp with
    | .error e => (.error e, cache, true)
    | .ok l => (.ok l, setCache cache cacheKey (.rulesetsVal l), true)

/-- Cache key of GetRuleset: `fmt.Sprintf("ruleset:%s/%s/%d", ...)`. -/
def rulesetCacheKey (owner repo : String) (id : Int) : String :=
  "ruleset:" ++ owner ++ "/" ++ repo ++ "/" ++ toString id

/-- GetRuleset fetches a specific ruleset by ID with cache
consult/populate. -/
def GetRuleset (owner repo : String) (id : Int) (cache : Cache)
    (resp : Except String Ruleset) :
    Except String Ruleset × Cache × Bool :=
  let cacheKey := rulesetCacheKey owner repo id
  match getFromCache cache cacheKey with
  | some (.rulesetVal r) => (.ok r, cache, false)
  | _ =>
    match resp with
    | .error e => (.error e, cache, true)
    | .ok r => (.ok r, setCache cache cacheKey (.rulesetVal r), true)

/-- Cache key of GetFileContent. -/
def fileCacheKey (owner repo filePath : String) : String :=
  "file:" ++ owner ++ "/" ++ repo ++ "/" ++ filePath

/-- GetFileContent fetches file content from the repository, checking
the cache first; on a fetch it requires base64 encoding, strips newlines
from the payload, decodes it (the stdlib base64 decoder is the `b64decode`
parameter) and caches the decoded bytes. -/
def GetFileContent (owner repo filePath : String) (cache : Cache)
    (b64decode : String → Except String (List Nat))
    (resp : Except String FileContent) :
    Except String (List Nat) × Cache × Bool :=
  let cacheKey := fileCacheKey owner repo filePath
  match getFromCache cache cacheKey with
  | some (.bytesVal b) => (.ok b, cache, false)
  | _ =>
    match resp with
    | .error e => (.error e, cache, true)
    | .ok content =>
      if content.Encoding ≠ "base64" then
        (.error ("unexpected encoding: " ++ content.Encoding), cache, true)
      else
        match b64decode (content.Content.replace "\n" "") with
        | .error e => (.error ("failed to decode content: " ++ e), cache, true)
        | .ok decoded => (.ok decoded, setCache cache cacheKey (.bytesVal decoded), true)

/-- Cache key of GetRemoteFileContent. -/
def remoteFileCacheKey (owner repo filePath : String) : String :=
  "remote-file:" ++ owner ++ "/" ++ repo ++ "/" ++ filePath

/-- GetRemoteFileContent fetches a file from another repository, same cache
discipline as GetFileContent under a "remote-file:" key. -/
def GetRemoteFileContent (owner repo filePath : String) (cache : Cache)
    (b64decode : String → Except String (List Nat))
    (resp : Except String FileContent) :
    Except String (List Nat) × Cache × Bool :=
  let cacheKey := remoteFileCacheKey owner repo filePath
  match getFromCache cache cacheKey with
  | some (.bytesVal b) => (.ok b, cache, false)
  | _ =>
    match resp with
    | .error e => (.error e, cache, true)
    | .ok content =>
      if content.Encoding ≠ "base64" then
        (.error ("unexpected encoding: " ++ content.Encoding), cache, true)
      else
        match b64decode (content.Content.replace "\n" "") with
        | .error e => (.error ("failed to decode content: " ++ e), cache, true)
        | .ok decoded => (.ok decoded, setCache cache cacheKey (.bytesVal decoded), true)

/-- Substring containment, the model of Go strings.Contains: does `s`
contain `substr`? -/
def goStartsWith : List Char → List Char → Bool
  | [], _ => true
  | _ :: _, [] => false
  | a :: p, b :: l => a = b && goStartsWith p l

def goHasSub (sub : List Char) : List Char → Bool
  | [] => sub.isEmpty
  | c :: rest => goStartsWith sub (c :: rest) || goHasSub sub rest

def goContains (s substr : String) : Bool :=
  goHasSub substr.toList s.toList

/-- IsNotFound checks if an error is a 404 not found error (error values
are modelled as message strings, so the string-containment arm of the Go
function applies). -/
def IsNotFound (e : String) : Bool :=
  goContains e "404" || goContains e "Not Found"

/-- GetVulnerabilityAlertsEnabled checks if Dependabot alerts are enabled
(204 = enabled, 404 = disabled); no cache read and no cache write. -/
def GetVulnerabilityAlertsEnabled (owner repo : String) (cache : Cache)
    (resp : Except String Unit) :
    Except String Bool × Cache × Bool :=
  match resp with
  | .error e => if IsNotFound e then (.ok false, cache, true) else (.error e, cache, true)
  | .ok _ => (.ok true, cache, true)

/-- GetAutomatedSecurityFixes checks if Dependabot security updates are
enabled; no cache read and no cache write. -/
def GetAutomatedSecurityFixes (owner repo : String) (cache : Cache)
    (resp : Except String AutomatedSecurityFixes) :
    Except String AutomatedSecurityFixes × Cache × Bool :=
  (resp, cache, true)

/-- UpdateRepository updates repository settings (PATCH); no cache use. -/
def UpdateRepository (owner repo : String) (req : RepoUpdateRequest) (cache : Cache)
    (resp : Except String Unit) : Except String Unit × Cache × Bool :=
  (resp, cache, true)

/-- UpdateWorkflowPermissions updates workflow permissions (PUT); no cache
use. -/
def UpdateWorkflowPermissions (owner repo : String) (canApprove : Bool) (cache : Cache)
    (resp : Except String Unit) : Except String Unit × Cache × Bool :=
  (resp, cache, true)

/-- CreateRuleset creates a new ruleset (POST); no cache use. -/
def CreateRuleset (owner repo : String) (cache : Cache)
    (resp : Except String Ruleset) : Except String Ruleset × Cache × Bool :=
  (resp, cache, true)

/-- UpdateRuleset updates an existing ruleset (PUT); no cache use. -/
def UpdateRuleset (owner repo : String) (id : Int) (cache : Cache)
    (resp : Except String Unit) : Except String Unit × Cache × Bool :=
  (resp, cache, true)

/-- EnableVulnerabilityAlerts (PUT); no cache use. -/
def EnableVulnerabilityAlerts (owner repo : String) (cache : Cache)
    (resp : Except String Unit) : Except String Unit × Cache × Bool :=
  (resp, cache, true)

/-- DisableVulnerabilityAlerts (DELETE); no cache use. -/
def DisableVulnerabilityAlerts (owner repo : String) (cache : Cache)
    (resp : Except String Unit) : Except String Unit × Cache × Bool :=
  (resp, cache, true)

/-- EnableAutomatedSecurityFixes (PUT); no cache use. -/
def EnableAutomatedSecurityFixes (owner repo : String) (cache : Cache)
    (resp : Except String Unit) : Except String Unit × Cache × Bool :=
  (resp, cache, true)

/-- DisableAutomatedSecurityFixes (DELETE); no cache use. -/
def DisableAutomatedSecurityFixes (owner repo : String) (cache : Cache)
    (resp : Except String Unit) : Except String Unit × Cache × Bool :=
  (resp, cache, true)

/-! ## C3 theorems -/

/-- C3 counterexample: the claim says every read convenience operation —
workflow permissions among them — consults the request-scoped cache before
issuing a network call and populates it on success.  GetWorkflowPermissions
does neither: a successful call leaves the cache empty, and an immediately
repeated call issues a network request again instead of serving from the
cache. -/
theorem getWorkflowPermissions_ignores_cache :
    GetWorkflowPermissions "octo" "hello" []
        (.ok { DefaultWorkflowPermissions := "read" })
      = (.ok { DefaultWorkflowPermissions := "read" }, [], true) ∧
    (GetWorkflowPermissions "octo" "hello"
        (GetWorkflowPermissions "octo" "hello" []
          (.ok { DefaultWorkflowPermissions := "read" })).2.1
        (.ok { DefaultWorkflowPermissions := "read" })).2
      = ([], true) := by
  exact ⟨rfl, rfl⟩

/-- C3 amended: the read operations for repository metadata, rulesets,
ruleset-by-id, file content and remote file content consult the cache
under their kind/owner/repo(/id) key before issuing a network call and
populate it on success, while the workflow-permissions,
vulnerability-alert-status and automated-security-fix-status reads always
issue the network call and leave the cache untouched; no write operation
reads or invalidates the cache. -/
theorem client_cache_discipline :
    (∀ owner repo cache resp r,
        getFromCache cache (repoCacheKey owner repo) = some (.repoVal r) →
        GetRepository owner repo cache resp = (.ok r, cache, false)) ∧
    (∀ owner repo cache (r : Repository),
        getFromCache cache (repoCacheKey owner repo) = none →
        r.Archived = false →
        GetRepository owner repo cache (.ok r)
          = (.ok r, setCache cache (repoCacheKey owner repo) (.repoVal r), true)) ∧
    (∀ owner repo cache resp l,
        getFromCache cache (rulesetsCacheKey owner repo) = some (.rulesetsVal l) →
        GetRulesets owner repo cache resp = (.ok l, cache, false)) ∧
    (∀ owner repo cache l,
        getFromCache cache (rulesetsCacheKey owner repo) = none →
        GetRulesets owner repo cache (.ok l)
          = (.ok l, setCache cache (rulesetsCacheKey owner repo) (.rulesetsVal l), true)) ∧
    (∀ owner repo id cache resp r,
        getFromCache cache (rulesetCacheKey owner repo id) = some (.rulesetVal r) →
        GetRuleset owner repo id cache resp = (.ok r, cache, false)) ∧
    (∀ owner repo id cache r,
        getFromCache cache (rulesetCacheKey owner repo id) = none →
        GetRuleset owner repo id cache (.ok r)
          = (.ok r, setCache cache (rulesetCacheKey owner repo id) (.rulesetVal r), true)) ∧
    (∀ owner repo p cache b64 resp b,
        getFromCache cache (fileCacheKey owner repo p) = some (.bytesVal b) →
        GetFileContent owner repo p cache b64 resp = (.ok b, cache, false)) ∧
    (∀ owner repo p cache b64 (content : FileContent) d,
        getFromCache cache (fileCacheKey owner repo p) = none →
        content.Encoding = "base64" →
        b64 (content.Content.replace "\n" "") = .ok d →
        GetFileContent owner repo p cache b64 (.ok content)
          = (.ok d, setCache cache (fileCacheKey owner repo p) (.bytesVal d), true)) ∧
    (∀ owner repo p cache b64 resp b,
        getFromCache cache (remoteFileCacheKey owner repo p) = some (.bytesVal b) →
        GetRemoteFileContent owner repo p cache b64 resp = (.ok b, cache, false)) ∧
    (∀ owner repo p cache b64 (content : FileContent) d,
        getFromCache cache (remoteFileCacheKey owner repo p) = none →
        content.Encoding = "base64" →
        b64 (content.Content.replace "\n" "") = .ok d →
        GetRemoteFileContent owner repo p cache b64 (.ok content)
          = (.ok d, setCache cache (remoteFileCacheKey owner repo p) (.bytesVal d), true)) ∧
    (∀ owner repo cache resp,
        GetWorkflowPermissions owner repo cache resp = (resp, cache, true)) ∧
    (∀ owner repo cache resp,
        (GetVulnerabilityAlertsEnabled owner repo cache resp).2 = (cache, true)) ∧
    (∀ owner repo cache resp,
        GetAutomatedSecurityFixes owner repo cache resp = (resp, cache, true)) ∧
    (∀ owner repo req cache resp,
        UpdateRepository owner repo req cache resp = (resp, cache, true)) ∧
    (∀ owner repo canApprove cache resp,
        UpdateWorkflowPermissions owner repo canApprove cache resp = (resp, cache, true)) ∧
    (∀ owner repo cache resp,
        CreateRuleset owner repo cache resp = (resp, cache, true)) ∧
    (∀ owner repo id cache resp,
        UpdateRuleset owner repo id cache resp = (resp, cache, true)) ∧
    (∀ owner repo cache resp,
        EnableVulnerabilityAlerts owner repo cache resp = (resp, cache, true)) ∧
    (∀ owner repo cache resp,
        DisableVulnerabilityAlerts owner repo cache resp = (resp, cache, true)) ∧
    (∀ owner repo cache resp,
        EnableAutomatedSecurityFixes owner repo cache resp = (resp, cache, true)) ∧
    (∀ owner repo cache resp,
        DisableAutomatedSecurityFixes owner repo cache resp = (resp, cache, true)) := by
  refine ⟨?_, ?_, ?_, ?_, ?_, ?_, ?_, ?_, ?_, ?_, ?_, ?_, ?_, ?_, ?_, ?_, ?_, ?_, ?_, ?_, ?_⟩
  · intro owner repo cache resp r h
    simp [GetRepository, h]
  · intro owner repo cache r h hr
    simp [GetRepository, h, hr]
  · intro owner repo cache resp l h
    simp [GetRulesets, h]
  · intro owner repo cache l h
    simp [GetRulesets, h]
  · intro owner repo id cache resp r h
    simp [GetRuleset, h]
  · intro owner repo id cache r h
    simp [GetRuleset, h]
  · intro owner repo p cache b64 resp b h
    simp [GetFileContent, h]
  · intro owner repo p cache b64 content d h he hd
    simp [GetFileContent, h, he, hd]
  · intro owner repo p cache b64 resp b h
    simp [GetRemoteFileContent, h]
  · intro owner repo p cache b64 content d h he hd
    simp [GetRemoteFileContent, h, he, hd]
  · intro owner repo cache resp
    rfl
  · intro owner repo cache resp
    cases resp with
    | error e =>
      simp only [GetVulnerabilityAlertsEnabled]
      by_cases h : IsNotFound e = true <;> simp [h]
    | ok u => rfl
  all_goals intro owner repo
  all_goals intros
  all_goals rfl

/-- Witness for `client_cache_discipline`: a cache hit for repository
metadata is served without a network call even when the transport would
fail, and a miss populates the cache. -/
theorem client_cache_discipline_witness :
    GetRepository "octo" "hello"
        [(repoCacheKey "octo" "hello", .repoVal { Name := "hello" })]
        (.error "net down")
      = (.ok { Name := "hello" },
          [(repoCacheKey "octo" "hello", .repoVal { Name := "hello" })], false) ∧
    GetRepository "octo" "hello" [] (.ok { Name := "hello" })
      = (.ok { Name := "hello" },
          setCache [] (repoCacheKey "octo" "hello") (.repoVal { Name := "hello" }), true) := by
  refine ⟨?_, ?_⟩
  · exact client_cache_discipline.1 "octo" "hello" _ _ { Name := "hello" } (by decide)
  · exact client_cache_discipline.2.1 "octo" "hello" [] { Name := "hello" } (by decide) rfl

/-! ## Retry with exponential backoff (github/files.go doWithRetry)

Durations are in seconds: the Go constants are `initialBackoff = 1 *
time.Second` and `maxBackoffDuration = 1 * time.Minute`, and every
operation of the loop (comparison, doubling, addition, capping
subtraction) commutes with the nanosecond scale factor.  The transport is
a stream giving the outcome of attempt `n`: `none` is a successful request,
`some e` a request failing with error message `e`. -/

def maxBackoffDuration : Nat := 60

def initialBackoff : Nat := 1

/-- isRateLimitError checks if the error is a rate limit error. -/
def isRateLimitError (e : String) : Bool :=
  goContains e "rate limit" || goContains e "403" || goContains e "secondary rate limit"

inductive RetryOutcome where
  | ok
  | errOther (e : String)
  | rateLimitExceeded (waited : Nat) (e : String)
  | outOfFuel
  deriving Repr, DecidableEq

/-- The body of the `for` loop of doWithRetry, with the performed sleeps made
explicit in the result.  `fuel` bounds the number of iterations so the
recursion is structural; `doWithRetry` below supplies enough fuel that
`outOfFuel` is unreachable (proved in `doWithRetry_retry_policy`).
In the Go code the cap `backoff = maxBackoffDuration - totalWait` uses
signed arithmetic, but along every execution starting from the initial
state `totalWait + backoff ≤ maxBackoffDuration` holds at each sleep, so
the truncated `Nat` subtraction agrees with it. -/
def doWithRetryAux (transport : Nat → Option String) :
    Nat → Nat → Nat → Nat → List Nat × RetryOutcome
  | 0, _, _, _ => ([], .outOfFuel)
  | fuel + 1, attempt, backoff, totalWait =>
    match transport attempt with
    | none => ([], .ok)
    | some e =>
      if ¬ isRateLimitError e then ([], .errOther e)
      else if maxBackoffDuration ≤ totalWait then ([], .rateLimitExceeded totalWait e)
      else
        let totalWait' := totalWait + backoff
        let backoff' := if maxBackoffDuration - totalWait' < backoff * 2
                        then maxBackoffDuration - totalWait' else backoff * 2
        let rest := doWithRetryAux transport fuel (attempt + 1) backoff' totalWait'
        (backoff :: rest.1, rest.2)

/-- doWithRetry performs an API request with exponential backoff for rate
limiting; returns the sleeps performed and the final outcome. -/
def doWithRetry (transport : Nat → Option String) : List Nat × RetryOutcome :=
  doWithRetryAux transport (maxBackoffDuration + 2) 0 initialBackoff 0

/-! One-step unfolding lemmas for the loop. -/

theorem doWithRetryAux_success (t : Nat → Option String) (fuel a b w : Nat)
    (h : t a = none) : doWithRetryAux t (fuel + 1) a b w = ([], .ok) := by
  simp [doWithRetryAux, h]

theorem doWithRetryAux_other (t : Nat → Option String) (fuel a b w : Nat) (e : String)
    (h : t a = some e) (hn : isRateLimitError e = false) :
    doWithRetryAux t (fuel + 1) a b w = ([], .errOther e) := by
  simp [doWithRetryAux, h, hn]

theorem doWithRetryAux_exceeded (t : Nat → Option String) (fuel a b w : Nat) (e : String)
    (h : t a = some e) (hr : isRateLimitError e = true)
    (hw : maxBackoffDuration ≤ w) :
    doWithRetryAux t (fuel + 1) a b w = ([], .rateLimitExceeded w e) := by
  simp [doWithRetryAux, h, hr, hw]

theorem doWithRetryAux_sleep (t : Nat → Option String) (fuel a b w : Nat) (e : String)
    (h : t a = some e) (hr : isRateLimitError e = true)
    (hw : w < maxBackoffDuration) :
    doWithRetryAux t (fuel + 1) a b w =
      ((b :: (doWithRetryAux t fuel (a + 1)
          (if maxBackoffDuration - (w + b) < b * 2
           then maxBackoffDuration - (w + b) else b * 2) (w + b)).1),
        (doWithRetryAux t fuel (a + 1)
          (if maxBackoffDuration - (w + b) < b * 2
           then maxBackoffDuration - (w + b) else b * 2) (w + b)).2) := by
  simp [doWithRetryAux, h, hr, Nat.not_le.mpr hw]

/-- With enough fuel relative to the wait already accumulated, the loop
never runs out of fuel: each sleeping iteration adds at least one second to
`totalWait`, and the loop stops once `totalWait` reaches the ceiling. -/
theorem doWithRetryAux_no_outOfFuel (t : Nat → Option String) :
    ∀ fuel a b w, 1 ≤ fuel → maxBackoffDuration + 2 ≤ fuel + w →
      (1 ≤ b ∨ maxBackoffDuration ≤ w) →
      (doWithRetryAux t fuel a b w).2 ≠ .outOfFuel := by
  intro fuel
  induction fuel with
  | zero => intro a b w h1 _ _; omega
  | succ n ih =>
    intro a b w _ hfw hb
    cases ht : t a with
    | none => rw [doWithRetryAux_success t n a b w ht]; intro hc; cases hc
    | some e =>
      by_cases hr : isRateLimitError e = true
      · by_cases hw : maxBackoffDuration ≤ w
        · rw [doWithRetryAux_exceeded t n a b w e ht hr hw]; intro hc; cases hc
        · have hwlt : w < maxBackoffDuration := Nat.not_le.mp hw
          have hb1 : 1 ≤ b := by
            rcases hb with hb | hb
            · exact hb
            · omega
          rw [doWithRetryAux_sleep t n a b w e ht hr hwlt]
          simp only
          apply ih
          · simp [maxBackoffDuration] at hwlt hfw ⊢; omega
          · omega
          · by_cases hwb : maxBackoffDuration ≤ w + b
            · right; exact hwb
            · left
              by_cases hcap : maxBackoffDuration - (w + b) < b * 2
              · simp only [if_pos hcap]; omega
              · simp only [if_neg hcap]; omega
      · rw [doWithRetryAux_other t n a b w e ht (by simpa using hr)]
        intro hc; cases hc

/-- The time slept never pushes the accumulated wait past the ceiling. -/
theorem doWithRetryAux_sum_le (t : Nat → Option String) :
    ∀ fuel a b w, w + b ≤ maxBackoffDuration →
      w + ((doWithRetryAux t fuel a b w).1).sum ≤ maxBackoffDuration := by
  intro fuel
  induction fuel with
  | zero => intro a b w h; simp [doWithRetryAux]; omega
  | succ n ih =>
    intro a b w h
    cases ht : t a with
    | none => rw [doWithRetryAux_success t n a b w ht]; simp; omega
    | some e =>
      by_cases hr : isRateLimitError e = true
      · by_cases hw : maxBackoffDuration ≤ w
        · rw [doWithRetryAux_exceeded t n a b w e ht hr hw]; simp; omega
        · have hwlt : w < maxBackoffDuration := Nat.not_le.mp hw
          rw [doWithRetryAux_sleep t n a b w e ht hr hwlt]
          simp only [List.sum_cons]
          have := ih (a + 1)
            (if maxBackoffDuration - (w + b) < b * 2
             then maxBackoffDuration - (w + b) else b * 2) (w + b)
            (by by_cases hcap : maxBackoffDuration - (w + b) < b * 2 <;>
                  simp only [if_pos, if_neg, hcap, if_true, if_false] <;> omega)
          omega
      · rw [doWithRetryAux_other t n a b w e ht (by simpa using hr)]
        simp; omega

/-- C4: if the transport signals a rate-limit condition on exactly the
first two attempts and succeeds on the third, doWithRetry returns success
after performing exactly two backoff sleeps, of durations `initial` and
`2 × initial` (1 and 2 seconds). -/
theorem doWithRetry_two_rate_limits_then_success (t : Nat → Option String)
    (e₀ e₁ : String)
    (h₀ : t 0 = some e₀) (hr₀ : isRateLimitError e₀ = true)
    (h₁ : t 1 = some e₁) (hr₁ : isRateLimitError e₁ = true)
    (h₂ : t 2 = none) :
    doWithRetry t = ([initialBackoff, 2 * initialBackoff], .ok) := by
  unfold doWithRetry
  rw [show maxBackoffDuration + 2 = 61 + 1 from rfl]
  rw [doWithRetryAux_sleep t 61 0 initialBackoff 0 e₀ h₀ hr₀ (by decide)]
  norm_num [initialBackoff, maxBackoffDuration]
  rw [show (61 : Nat) = 60 + 1 from rfl]
  rw [doWithRetryAux_sleep t 60 1 2 1 e₁ h₁ hr₁ (by decide)]
  norm_num [maxBackoffDuration]
  rw [show (60 : Nat) = 59 + 1 from rfl]
  rw [doWithRetryAux_success t 59 2 4 3 h₂]
  exact ⟨rfl, rfl⟩

/-- Witness for `doWithRetry_two_rate_limits_then_success` at a concrete
transport rate-limited on attempts 0 and 1. -/
theorem doWithRetry_two_rate_limits_then_success_witness :
    doWithRetry (fun n => if n < 2 then some "rate limit" else none)
      = ([initialBackoff, 2 * initialBackoff], .ok) :=
  doWithRetry_two_rate_limits_then_success
    (fun n => if n < 2 then some "rate limit" else none)
    "rate limit" "rate limit" rfl (by decide) rfl (by decide) rfl

/-- C5: for every sequence of transport responses the retry loop
terminates (it never exhausts its fuel); the cumulative time slept never
exceeds the one-minute ceiling; a non-rate-limit error is returned
immediately with no retry sleep; and under persistently rate-limited
responses the loop sleeps 1, 2, 4, 8, 16 and then the capped 29 seconds
(60 in total) and fails with a rate-limit-exceeded error reporting the
total duration waited. -/
theorem doWithRetry_retry_policy (t : Nat → Option String) :
    (doWithRetry t).2 ≠ .outOfFuel ∧
    ((doWithRetry t).1).sum ≤ maxBackoffDuration ∧
    (∀ e, t 0 = some e → isRateLimitError e = false →
      doWithRetry t = ([], .errOther e)) ∧
    ((∀ n, ∃ e, t n = some e ∧ isRateLimitError e = true) →
      ∃ e, isRateLimitError e = true ∧
        doWithRetry t = ([1, 2, 4, 8, 16, 29], .rateLimitExceeded 60 e)) := by
  refine ⟨?_, ?_, ?_, ?_⟩
  · exact doWithRetryAux_no_outOfFuel t (maxBackoffDuration + 2) 0 initialBackoff 0
      (by decide) (by decide) (Or.inl (by decide))
  · have := doWithRetryAux_sum_le t (maxBackoffDuration + 2) 0 initialBackoff 0 (by decide)
    unfold doWithRetry
    omega
  · intro e h0 hn
    unfold doWithRetry
    rw [show maxBackoffDuration + 2 = 61 + 1 from rfl]
    exact doWithRetryAux_other t 61 0 initialBackoff 0 e h0 hn
  · intro hall
    obtain ⟨e₀, h₀, hr₀⟩ := hall 0
    obtain ⟨e₁, h₁, hr₁⟩ := hall 1
    obtain ⟨e₂, h₂, hr₂⟩ := hall 2
    obtain ⟨e₃, h₃, hr₃⟩ := hall 3
    obtain ⟨e₄, h₄, hr₄⟩ := hall 4
    obtain ⟨e₅, h₅, hr₅⟩ := hall 5
    obtain ⟨e₆, h₆, hr₆⟩ := hall 6
    refine ⟨e₆, hr₆, ?_⟩
    unfold doWithRetry
    rw [show maxBackoffDuration + 2 = 61 + 1 from rfl]
    rw [doWithRetryAux_sleep t 61 0 initialBackoff 0 e₀ h₀ hr₀ (by decide)]
    norm_num [initialBackoff, maxBackoffDuration]
    rw [show (61 : Nat) = 60 + 1 from rfl]
    rw [doWithRetryAux_sleep t 60 1 2 1 e₁ h₁ hr₁ (by decide)]
    norm_num [maxBackoffDuration]
    rw [show (60 : Nat) = 59 + 1 from rfl]
    rw [doWithRetryAux_sleep t 59 2 4 3 e₂ h₂ hr₂ (by decide)]
    norm_num [maxBackoffDuration]
    rw [show (59 : Nat) = 58 + 1 from rfl]
    rw [doWithRetryAux_sleep t 58 3 8 7 e₃ h₃ hr₃ (by decide)]
    norm_num [maxBackoffDuration]
    rw [show (58 : Nat) = 57 + 1 from rfl]
    rw [doWithRetryAux_sleep t 57 4 16 15 e₄ h₄ hr₄ (by decide)]
    norm_num [maxBackoffDuration]
    rw [show (57 : Nat) = 56 + 1 from rfl]
    rw [doWithRetryAux_sleep t 56 5 29 31 e₅ h₅ hr₅ (by decide)]
    norm_num [maxBackoffDuration]
    rw [show (56 : Nat) = 55 + 1 from rfl]
    rw [doWithRetryAux_exceeded t 55 6 0 60 e₆ h₆ hr₆ (by decide)]
    exact ⟨rfl, rfl⟩

/-- Witness for `doWithRetry_retry_policy`: a transport failing with a
non-rate-limit error aborts immediately, and a persistently rate-limited
transport exhausts the one-minute budget. -/
theorem doWithRetry_retry_policy_witness :
    doWithRetry (fun _ => some "500 server error") = ([], .errOther "500 server error") ∧
    ∃ e, isRateLimitError e = true ∧
      doWithRetry (fun _ => some "rate limit")
        = ([1, 2, 4, 8, 16, 29], .rateLimitExceeded 60 e) := by
  constructor
  · exact (doWithRetry_retry_policy (fun _ => some "500 server error")).2.2.1
      "500 server error" rfl (by decide)
  · exact (doWithRetry_retry_policy (fun _ => some "rate limit")).2.2.2
      (fun n => ⟨"rate limit", rfl, by decide⟩)

/-! ## Reference resolution (github/files.go ResolveReferenceFile)

The local filesystem is an oracle `fs` giving the outcome of
`os.ReadFile(reference)`, and the remote lookup an oracle `remote` giving
the outcome of `client.GetRemoteFileContent(owner, repo, path)`.  Error
messages follow the Go sources except that the Go single-quote characters
around interpolated values are omitted. -/

/-- Outcome of the os.ReadFile call on the reference path. -/
inductive LocalRead where
  | content (b : List Nat)
  | errNotExist
  | errOther (e : String)
  deriving Repr, DecidableEq

/-- Splits a character list at the first occurrence of `sep`. -/
def splitFirst (sep : Char) : List Char → Option (List Char × List Char)
  | [] => none
  | c :: rest =>
    if c = sep then some ([], rest)
    else
      match splitFirst sep rest with
      | none => none
      | some (p, q) => some (c :: p, q)

/-- Model of Go strings.SplitN(s, sep, n) on character lists: at most `n`
parts, with the last part keeping any remaining separators. -/
def goSplitN (sep : Char) : List Char → Nat → List (List Char)
  | _, 0 => []
  | l, 1 => [l]
  | l, n + 2 =>
    match splitFirst sep l with
    | none => [l]
    | some (p, q) => p :: goSplitN sep q (n + 1)

/-- strings.SplitN(reference, "/", 3). -/
def goSplitN3 (s : String) : List String :=
  (goSplitN '/' s.toList 3).map (fun l => String.mk l)

/-- The error cases of ResolveReferenceFile. -/
inductive RefError where
  | localReadError (e : String)
  | formatError (reference : String)
  | remoteFetchError (e : String)
  deriving Repr, DecidableEq

/-- The wrapped error messages produced by ResolveReferenceFile. -/
def RefError.message : RefError → String
  | .localReadError e => "failed to read local reference file: " ++ e
  | .formatError reference =>
      "reference file " ++ reference ++
        " not found locally and invalid remote format (expected owner/repo/path)"
  | .remoteFetchError e => "failed to fetch remote reference file: " ++ e

/-- ResolveReferenceFile resolves a reference file from the local
filesystem or a remote repository; the second component counts the remote
fetches issued. -/
def ResolveReferenceFile (fs : String → LocalRead)
    (remote : String → String → String → Except String (List Nat))
    (reference : String) : Except RefError (List Nat) × Nat :=
  match fs reference with
  | .content b => (.ok b, 0)
  | .errOther e => (.error (.localReadError e), 0)
  | .errNotExist =>
    match goSplitN3 reference with
    | [refOwner, refRepo, refPath] =>
      match remote refOwner refRepo refPath with
      | .error e => (.error (.remoteFetchError e), 1)
      | .ok b => (.ok b, 1)
    | _ => (.error (.formatError reference), 0)

theorem count_zero_splitFirst (sep : Char) :
    ∀ l : List Char, l.count sep = 0 → splitFirst sep l = none := by
  intro l
  induction l with
  | nil => intro _; rfl
  | cons c rest ih =>
    intro h
    have hcount : rest.count sep = 0 ∧ ¬ sep = c := by
      by_cases hcs : sep = c
      · simp [List.count_cons, hcs] at h
      · simp [List.count_cons, hcs] at h
        simp [h, hcs]
    have hc : ¬ c = sep := fun hcc => hcount.2 hcc.symm
    simp [splitFirst, if_neg hc, ih hcount.1]

theorem splitFirst_some_count (sep : Char) :
    ∀ l p q, splitFirst sep l = some (p, q) → l.count sep = q.count sep + 1 := by
  intro l
  induction l with
  | nil => intro p q h; cases h
  | cons c rest ih =>
    intro p q h
    by_cases hc : c = sep
    · subst hc
      simp only [splitFirst, if_pos rfl] at h
      cases h
      simp [List.count_cons]
    · simp only [splitFirst, if_neg hc] at h
      cases hsf : splitFirst sep rest with
      | none => rw [hsf] at h; cases h
      | some pq =>
        rw [hsf] at h
        obtain ⟨p0, q0⟩ := pq
        cases h
        have := ih _ _ hsf
        simp [List.count_cons, hc]
        omega

/-- A reference with fewer than two separators splits into fewer than
three parts. -/
theorem goSplitN3_short (s : String) (h : s.toList.count '/' < 2) :
    (∃ x, goSplitN3 s = [x]) ∨ (∃ x y, goSplitN3 s = [x, y]) := by
  unfold goSplitN3
  cases hsf : splitFirst '/' s.toList with
  | none =>
    left
    have hsf2 : splitFirst '/' s.data = none := hsf
    simp [goSplitN, hsf2]
  | some pq =>
    obtain ⟨p, q⟩ := pq
    right
    have hq : q.count '/' = 0 := by
      have := splitFirst_some_count '/' s.toList p q hsf
      omega
    have hq2 : splitFirst '/' q = none := count_zero_splitFirst '/' q hq
    have hsf2 : splitFirst '/' s.data = some (p, q) := hsf
    simp [goSplitN, hsf2, hq2]

/-- C6: a reference that reads successfully from the local filesystem is
returned as-is with no remote fetch (even when it would also parse as
owner/repo/path); any local read error other than does-not-exist is a
fatal local-read error, again with no remote fetch; only the
does-not-exist outcome falls back to the remote lookup. -/
theorem resolveReferenceFile_local_first (fs : String → LocalRead)
    (remote : String → String → String → Except String (List Nat))
    (reference : String) :
    (∀ b, fs reference = .content b →
      ResolveReferenceFile fs remote reference = (.ok b, 0)) ∧
    (∀ e, fs reference = .errOther e →
      ResolveReferenceFile fs remote reference = (.error (.localReadError e), 0)) ∧
    (∀ o r p b, fs reference = .errNotExist → goSplitN3 reference = [o, r, p] →
      remote o r p = .ok b →
      ResolveReferenceFile fs remote reference = (.ok b, 1)) := by
  refine ⟨?_, ?_, ?_⟩
  · intro b h
    unfold ResolveReferenceFile
    rw [h]
  · intro e h
    unfold ResolveReferenceFile
    rw [h]
  · intro o r p b h hsplit hrem
    unfold ResolveReferenceFile
    rw [h, hsplit]
    simp [hrem]

/-- Witness for `resolveReferenceFile_local_first`: a local file whose
name also parses as owner/repo/path is served locally with zero remote
fetches, even though the remote side would answer differently. -/
theorem resolveReferenceFile_local_first_witness :
    ResolveReferenceFile (fun _ => .content [7, 7])
        (fun _ _ _ => .ok [9]) "acme/acme/policy.json"
      = (.ok [7, 7], 0) :=
  (resolveReferenceFile_local_first (fun _ => .content [7, 7])
      (fun _ _ _ => .ok [9]) "acme/acme/policy.json").1 [7, 7] rfl

/-- C7: a reference with fewer than two separators and no local file fails
with the format error naming the expected owner/repo/path form, with zero
remote fetches; the failure is the format-error case, not the
remote-transport case. -/
theorem resolveReferenceFile_format_error (fs : String → LocalRead)
    (remote : String → String → String → Except String (List Nat))
    (reference : String)
    (hfs : fs reference = .errNotExist)
    (hsl : reference.toList.count '/' < 2) :
    ResolveReferenceFile fs remote reference
        = (.error (.formatError reference), 0) ∧
    (RefError.formatError reference).message
      = "reference file " ++ reference ++
          " not found locally and invalid remote format (expected owner/repo/path)" ∧
    (∀ e, RefError.formatError reference ≠ .remoteFetchError e) := by
  refine ⟨?_, rfl, ?_⟩
  · unfold ResolveReferenceFile
    rw [hfs]
    rcases goSplitN3_short reference hsl with ⟨x, hx⟩ | ⟨x, y, hxy⟩
    · rw [hx]
    · rw [hxy]
  · intro e h
    cases h

/-- Witness for `resolveReferenceFile_format_error` at the slash-free
reference "README.md". -/
theorem resolveReferenceFile_format_error_witness :
    ResolveReferenceFile (fun _ => .errNotExist) (fun _ _ _ => .ok [9]) "README.md"
      = (.error (.formatError "README.md"), 0) :=
  (resolveReferenceFile_format_error (fun _ => .errNotExist)
      (fun _ _ _ => .ok [9]) "README.md" rfl (by decide)).1

/-! ## Issues and the fix orchestrator (checks package, fix/orchestrator.go)

The orchestrator code is reproduced in the repository README.  `CheckType`
is a string type; Go field `Type` is written `typ`; `Data
map[string]string` is an association list read through `dataGet` (Go map
indexing yields the zero value "" for a missing key).  A fixer `Fix(ctx,
issue)` returning `(*Result, error)` is a function into `Except String
Result` (`error e` = non-nil Go error, `ok r` = non-nil result). -/

def DataKeyFileName : String := "file_name"
def DataKeyReference : String := "reference"
def DataKeyRulesetName : String := "ruleset_name"
def DataKeySetting : String := "setting"

/-- Issue represents a linting issue found during a check. -/
structure Issue where
  typ : String := ""
  Name : String := ""
  Message : String := ""
  Fixable : Bool := false
  Data : List (String × String) := []
  deriving Repr, DecidableEq

/-- Go map indexing on `Data`: the zero value "" when the key is absent. -/
def dataGet (d : List (String × String)) (key : String) : String :=
  match d with
  | [] => ""
  | (k, v) :: rest => if k = key then v else dataGet rest key

/-- Result represents the result of a fix attempt (fix package). -/
structure Result where
  Issue : Repolint.Issue := {}
  Fixed : Bool := false
  Error : Option String := none
  deriving Repr, DecidableEq

/-- Orchestrator.Fix attempts to fix all fixable issues, producing one
Result per issue in order; the registered fixers are a map from check type
to fixer. -/
def OrchestratorFix (fixers : String → Option (Issue → Except String Result)) :
    List Issue → List Result
  | [] => []
  | issue :: rest =>
    let r : Result :=
      if ¬ issue.Fixable then
        { Issue := issue, Fixed := false, Error := some "issue is not fixable" }
      else
        match fixers issue.typ with
        | none =>
          { Issue := issue, Fixed := false,
            Error := some ("no fixer for check type " ++ issue.typ) }
        | some fixer =>
          match fixer issue with
          | .error e => { Issue := issue, Fixed := false, Error := some e }
          | .ok result => result
    r :: OrchestratorFix fixers rest

theorem orchestratorFix_eq_map (fixers : String → Option (Issue → Except String Result)) :
    ∀ issues : List Issue,
      OrchestratorFix fixers issues = issues.map (fun issue =>
        if ¬ issue.Fixable then
          { Issue := issue, Fixed := false, Error := some "issue is not fixable" }
        else
          match fixers issue.typ with
          | none =>
            { Issue := issue, Fixed := false,
              Error := some ("no fixer for check type " ++ issue.typ) }
          | some fixer =>
            match fixer issue with
            | .error e => { Issue := issue, Fixed := false, Error := some e }
            | .ok result => result) := by
  intro issues
  induction issues with
  | nil => rfl
  | cons issue rest ih => simp [OrchestratorFix, ih]

/-- C8: Orchestrator.Fix returns a parallel result list — same length, same
order, never aborting the batch.  The i-th result is determined by the
i-th issue alone: not-fixable issues yield a Fixed=false result with the
"issue is not fixable" error; issues of a category with no registered
fixer yield a Fixed=false result whose error names the missing category;
otherwise the registered fixer for the category is invoked, a fixer error
is recorded as a Fixed=false result for that issue, and a fixer result is
recorded verbatim — so result `i` carries issue `i` whenever fixers embed
the issue they were handed (as `failedResult`/`successResult` do). -/
theorem orchestratorFix_parallel (fixers : String → Option (Issue → Except String Result))
    (issues : List Issue) :
    (OrchestratorFix fixers issues).length = issues.length ∧
    (∀ (i : Nat) (issue : Issue), issues[i]? = some issue →
      ((issue.Fixable = false →
        (OrchestratorFix fixers issues)[i]?
          = some { Issue := issue, Fixed := false,
                   Error := some "issue is not fixable" }) ∧
       (issue.Fixable = true → fixers issue.typ = none →
        (OrchestratorFix fixers issues)[i]?
          = some { Issue := issue, Fixed := false,
                   Error := some ("no fixer for check type " ++ issue.typ) }) ∧
       (∀ f, issue.Fixable = true → fixers issue.typ = some f →
        (∀ e, f issue = .error e →
          (OrchestratorFix fixers issues)[i]?
            = some { Issue := issue, Fixed := false, Error := some e }) ∧
        (∀ r, f issue = .ok r →
          (OrchestratorFix fixers issues)[i]? = some r)))) ∧
    ((∀ t f issue r, fixers t = some f → f issue = .ok r → r.Issue = issue) →
      ∀ (i : Nat) (issue : Issue), issues[i]? = some issue →
        ∃ res : Result,
          (OrchestratorFix fixers issues)[i]? = some res ∧ res.Issue = issue) := by
  refine ⟨?_, ?_, ?_⟩
  · rw [orchestratorFix_eq_map]
    exact issues.length_map _
  · intro i issue hi
    rw [orchestratorFix_eq_map, List.getElem?_map, hi]
    refine ⟨?_, ?_, ?_⟩
    · intro hfix
      simp [hfix]
    · intro hfix hnone
      simp [hfix, hnone]
    · intro f hfix hsome
      constructor
      · intro e herr
        simp [hfix, hsome, herr]
      · intro r hok
        simp [hfix, hsome, hok]
  · intro hgood i issue hi
    rw [orchestratorFix_eq_map, List.getElem?_map, hi]
    cases hfix : issue.Fixable with
    | false =>
      refine ⟨{ Issue := issue, Fixed := false, Error := some "issue is not fixable" },
        ?_, rfl⟩
      simp [hfix]
    | true =>
      cases hsome : fixers issue.typ with
      | none =>
        refine ⟨{ Issue := issue, Fixed := false, Error := some ("no fixer for check type " ++ issue.typ) },
          ?_, rfl⟩
        simp [hfix, hsome]
      | some f =>
        cases hout : f issue with
        | error e =>
          refine ⟨{ Issue := issue, Fixed := false, Error := some e }, ?_, rfl⟩
          simp [hfix, hsome, hout]
        | ok r =>
          refine ⟨r, ?_, hgood issue.typ f issue r hsome hout⟩
          simp [hfix, hsome, hout]

/-- Witness for `orchestratorFix_parallel`: a two-issue batch where the
first issue is not fixable and the second issue has no registered fixer
still yields two per-issue results. -/
theorem orchestratorFix_parallel_witness :
    (OrchestratorFix (fun _ => none)
        [{ typ := "settings", Fixable := false }, { typ := "files", Fixable := true }]).length
      = 2 ∧
    (OrchestratorFix (fun _ => none)
        [{ typ := "settings", Fixable := false }, { typ := "files", Fixable := true }])[1]?
      = some { Issue := { typ := "files", Fixable := true }, Fixed := false,
               Error := some ("no fixer for check type " ++ "files") } := by
  constructor
  · exact (orchestratorFix_parallel (fun _ => none)
      [{ typ := "settings", Fixable := false }, { typ := "files", Fixable := true }]).1
  · exact (((orchestratorFix_parallel (fun _ => none)
      [{ typ := "settings", Fixable := false }, { typ := "files", Fixable := true }]).2.1
        1 { typ := "files", Fixable := true } rfl).2.1 rfl rfl)

/-! ## SettingsFixer (fix/settings.go)

The client methods a settings fix can call are oracles collected in
`ClientOps`, each giving the error the call would return (`none` =
success).  The Go merge-setting cases read `f.config.Merge.<Field>`
without a nil check; dereferencing a nil `*MergeConfig` is a runtime
panic, which the model makes explicit as the `panicNilDeref` outcome. -/

structure ClientOps where
  updateRepository : RepoUpdateRequest → Option String
  updateWorkflowPermissions : Bool → Option String
  enableVulnerabilityAlerts : Option String
  disableVulnerabilityAlerts : Option String
  enableAutomatedSecurityFixes : Option String
  disableAutomatedSecurityFixes : Option String

/-- failedResult creates a Result indicating the fix failed with an error
(fix package, reproduced in the repository README): the Go function
returns `(&Result{Issue: issue, Fixed: false, Error: err}, nil)`, i.e. a
per-issue failed result and a nil Go error. -/
def failedResult (issue : Issue) (e : String) : Result :=
  { Issue := issue, Fixed := false, Error := some e }

/-- successResult creates a Result indicating the fix succeeded (fix
package, reproduced in the repository README): `&Result{Issue: issue,
Fixed: true}` with a nil Go error. -/
def successResult (issue : Issue) : Result :=
  { Issue := issue, Fixed := true, Error := none }

/-- Outcome of running a fixer body: either the Go function returns
`(result, nil)`, or the Go runtime panics on a nil pointer dereference. -/
inductive FixOutcome where
  | ok (r : Result)
  | panicNilDeref
  deriving Repr, DecidableEq

/-- The `switch setting` arm of SettingsFixer.Fix that builds the
RepoUpdateRequest.  The merge-related cases dereference `cfg.Merge`
unconditionally, which panics when it is nil. -/
inductive ReqBuild where
  | unknown
  | panicNilDeref
  | req (r : RepoUpdateRequest)
  deriving Repr, DecidableEq

def settingToReq (cfg : SettingsConfig) : String → ReqBuild
  | "issues" => .req { HasIssues := cfg.Issues }
  | "wiki" => .req { HasWiki := cfg.Wiki }
  | "projects" => .req { HasProjects := cfg.Projects }
  | "discussions" => .req { HasDiscussions := cfg.Discussions }
  | "merge_commit" =>
    match cfg.Merge with
    | none => .panicNilDeref
    | some m => .req { AllowMergeCommit := m.AllowMergeCommit }
  | "squash_merge" =>
    match cfg.Merge with
    | none => .panicNilDeref
    | some m => .req { AllowSquashMerge := m.AllowSquashMerge }
  | "rebase_merge" =>
    match cfg.Merge with
    | none => .panicNilDeref
    | some m => .req { AllowRebaseMerge := m.AllowRebaseMerge }
  | "auto_merge" =>
    match cfg.Merge with
    | none => .panicNilDeref
    | some m => .req { AllowAutoMerge := m.AllowAutoMerge }
  | "delete_branch_on_merge" =>
    match cfg.Merge with
    | none => .panicNilDeref
    | some m => .req { DeleteBranchOnMerge := m.DeleteBranchOnMerge }
  | "update_branch" =>
    match cfg.Merge with
    | none => .panicNilDeref
    | some m => .req { AllowUpdateBranch := m.AlwaysSuggestUpdatingPullRequestBranches }
  | _ => .unknown

def fixActionsApprove (ops : ClientOps) (cfg : SettingsConfig) (issue : Issue) : FixOutcome :=
  match cfg.AllowActionsToApprovePRs with
  | none => .ok (failedResult issue "allow_actions_to_approve_prs not configured")
  | some v =>
    match ops.updateWorkflowPermissions v with
    | some e => .ok (failedResult issue ("failed to update workflow permissions: " ++ e))
    | none => .ok (successResult issue)

def fixDependabotAlerts (ops : ClientOps) (cfg : SettingsConfig) (issue : Issue) : FixOutcome :=
  match cfg.Dependabot with
  | none => .ok (failedResult issue "dependabot alerts not configured")
  | some d =>
    match d.Alerts with
    | none => .ok (failedResult issue "dependabot alerts not configured")
    | some v =>
      match (if v then ops.enableVulnerabilityAlerts else ops.disableVulnerabilityAlerts) with
      | some e => .ok (failedResult issue ("failed to update vulnerability alerts: " ++ e))
      | none => .ok (successResult issue)

def fixDependabotSecurityUpdates (ops : ClientOps) (cfg : SettingsConfig)
    (issue : Issue) : FixOutcome :=
  match cfg.Dependabot with
  | none => .ok (failedResult issue "dependabot security updates not configured")
  | some d =>
    match d.SecurityUpdates with
    | none => .ok (failedResult issue "dependabot security updates not configured")
    | some v =>
      match (if v then ops.enableAutomatedSecurityFixes
             else ops.disableAutomatedSecurityFixes) with
      | some e =>
        .ok (failedResult issue ("failed to update automated security fixes: " ++ e))
      | none => .ok (successResult issue)

/-- SettingsFixer.Fix attempts to fix a repository settings issue. -/
def SettingsFixerFix (ops : ClientOps) (cfg : SettingsConfig) (issue : Issue) : FixOutcome :=
  let setting := dataGet issue.Data DataKeySetting
  if setting = "" then .ok (failedResult issue "issue data missing setting")
  else if setting = "actions_approve_prs" then fixActionsApprove ops cfg issue
  else if setting = "dependabot_alerts" then fixDependabotAlerts ops cfg issue
  else if setting = "dependabot_security_updates" then
    fixDependabotSecurityUpdates ops cfg issue
  else
    match settingToReq cfg setting with
    | .unknown => .ok (failedResult issue ("unknown setting: " ++ setting))
    | .panicNilDeref => .panicNilDeref
    | .req r =>
      match ops.updateRepository r with
      | some e => .ok (failedResult issue ("failed to update repository: " ++ e))
      | none => .ok (successResult issue)

/-- The client oracle for the C9 failing input (every call succeeds; the
tests pass a nil client, but the panic fires before any client call). -/
def opsC9 : ClientOps :=
  { updateRepository := fun _ => none
    updateWorkflowPermissions := fun _ => none
    enableVulnerabilityAlerts := none
    disableVulnerabilityAlerts := none
    enableAutomatedSecurityFixes := none
    disableAutomatedSecurityFixes := none }

/-- The issue of TestSettingsFixer_Fix_NilMergeConfig for a given merge
setting key. -/
def issueC9 (setting : String) : Issue :=
  { typ := "settings", Name := "settings", Message := "test issue", Fixable := true,
    Data := [(DataKeySetting, setting)] }

/-- C9: for every merge-related settings issue, SettingsFixer.Fix with a
nil Merge config hits the unguarded `f.config.Merge` dereference and
panics, instead of returning the per-issue failed result (Fixed=false,
error "merge settings not configured") that
TestSettingsFixer_Fix_NilMergeConfig requires. -/
theorem settingsFixerFix_nil_merge_panics :
    SettingsFixerFix opsC9 { Merge := none } (issueC9 "merge_commit") = .panicNilDeref ∧
    SettingsFixerFix opsC9 { Merge := none } (issueC9 "squash_merge") = .panicNilDeref ∧
    SettingsFixerFix opsC9 { Merge := none } (issueC9 "rebase_merge") = .panicNilDeref ∧
    SettingsFixerFix opsC9 { Merge := none } (issueC9 "auto_merge") = .panicNilDeref ∧
    SettingsFixerFix opsC9 { Merge := none } (issueC9 "delete_branch_on_merge") = .panicNilDeref ∧
    SettingsFixerFix opsC9 { Merge := none } (issueC9 "update_branch") = .panicNilDeref ∧
    (FixOutcome.panicNilDeref
        == .ok (failedResult (issueC9 "merge_commit") "merge settings not configured"))
      = false := by
  refine ⟨rfl, rfl, rfl, rfl, rfl, rfl, ?_⟩
  decide

/-! ## Ruleset comparison (checks/rulesets.go)

`ruleParametersMatch` compares Go `map[string]any` values through their
canonical JSON serialization; since Go marshals maps with sorted keys,
string-valued parameter maps (association lists with distinct keys) are
modelled and the serialization by key-sorting the list. -/

/-- stringSlicesEqual checks if two string slices are equal. -/
def stringSlicesEqual (a b : List String) : Bool :=
  if a.length ≠ b.length then false
  else (a.zip b).all (fun p => p.1 == p.2)

/-- conditionsMatch compares ruleset conditions. -/
def conditionsMatch (actual expected : Option RulesetConditions) : Bool :=
  match actual, expected with
  | none, none => true
  | none, some _ => false
  | some _, none => false
  | some a, some e =>
    match a.RefName, e.RefName with
    | none, none => true
    | none, some _ => false
    | some _, none => false
    | some ar, some er =>
      stringSlicesEqual ar.Include er.Include && stringSlicesEqual ar.Exclude er.Exclude

def insertSortedByKey (p : String × String) :
    List (String × String) → List (String × String)
  | [] => [p]
  | q :: rest => if p.1 ≤ q.1 then p :: q :: rest else q :: insertSortedByKey p rest

/-- Key-sorted form of a parameter map: the canonical JSON key order. -/
def canonicalParams (m : List (String × String)) : List (String × String) :=
  m.foldr insertSortedByKey []

/-- ruleParametersMatch compares rule parameters: nil and empty maps are
equivalent, otherwise the canonical JSON serializations are compared. -/
def ruleParametersMatch (actual expected : Option (List (String × String))) : Bool :=
  match actual, expected with
  | none, none => true
  | none, some e => e.isEmpty
  | some a, none => a.isEmpty
  | some a, some e => canonicalParams a == canonicalParams e

/-- Go map assignment `m[k] = v` on an association list. -/
def mapInsert (m : List (String × RulesetRule)) (k : String) (v : RulesetRule) :
    List (String × RulesetRule) :=
  m.filter (fun p => p.1 != k) ++ [(k, v)]

/-- The `actualByType`/`expectedByType` maps of rulesMatch. -/
def buildByType (rules : List RulesetRule) : List (String × RulesetRule) :=
  rules.foldl (fun m r => mapInsert m r.typ r) []

def mapLookup (m : List (String × RulesetRule)) (k : String) : Option RulesetRule :=
  match m with
  | [] => none
  | (k2, v) :: rest => if k2 = k then some v else mapLookup rest k

/-- rulesMatch compares ruleset rules by building per-type maps, requiring
every expected rule to exist in actual with matching parameters and no
extra rule types in actual. -/
def rulesMatch (actual expected : List RulesetRule) : Bool :=
  if actual.length ≠ expected.length then false
  else
    let actualByType := buildByType actual
    let expectedByType := buildByType expected
    (expectedByType.all fun p =>
      match mapLookup actualByType p.1 with
      | none => false
      | some actualRule => ruleParametersMatch actualRule.Parameters p.2.Parameters) &&
    (actualByType.all fun p => (mapLookup expectedByType p.1).isSome)

/-- The `fmt.Sprintf("%d:%s:%s", ActorID, ActorType, BypassMode)` key of
bypassActorsMatch. -/
def bypassActorKey (actor : BypassActor) : String :=
  toString actor.ActorID ++ ":" ++ actor.ActorType ++ ":" ++ actor.BypassMode

/-- bypassActorsMatch compares bypass actors: a length check plus one-way
membership of each actual actor key in the expected key set. -/
def bypassActorsMatch (actual expected : List BypassActor) : Bool :=
  if actual.length ≠ expected.length then false
  else
    let expectedSet := expected.map bypassActorKey
    actual.all (fun actor => expectedSet.contains (bypassActorKey actor))

/-- rulesetsMatch compares two rulesets for equivalence on enforcement,
target, conditions, rules and bypass actors, ignoring ID and other
runtime fields. -/
def rulesetsMatch (actual expected : Ruleset) : Bool :=
  actual.Enforcement == expected.Enforcement &&
  actual.Target == expected.Target &&
  conditionsMatch actual.Conditions expected.Conditions &&
  rulesMatch actual.Rules expected.Rules &&
  bypassActorsMatch actual.BypassActors expected.BypassActors

/-- The repeated actual-side bypass actor of the C10 witness. -/
def actorA : BypassActor := { ActorID := 1, ActorType := "Team", BypassMode := "always" }

/-- The expected-side bypass actor absent from the actual list. -/
def actorB : BypassActor := { ActorID := 2, ActorType := "Team", BypassMode := "always" }

/-- The live ruleset of the C10 witness, with a duplicated bypass actor. -/
def rulesetActualC10 : Ruleset :=
  { ID := 7, Name := "main", Target := "branch", Enforcement := "active",
    Conditions := none, Rules := [], BypassActors := [actorA, actorA] }

/-- The reference ruleset of the C10 witness, with two distinct actors. -/
def rulesetExpectedC10 : Ruleset :=
  { ID := 0, Name := "main", Target := "branch", Enforcement := "active",
    Conditions := none, Rules := [], BypassActors := [actorA, actorB] }

/-- C10: two equal-length bypass-actor lists that are not equal as
multisets — the actual list repeating `actorA` while the expected list
contains `actorB`, absent from the actual list — are reported as matching
by bypassActorsMatch, and hence by rulesetsMatch, because actors are
compared only by one-way set membership plus a length check. -/
theorem bypassActorsMatch_one_way_gap :
    bypassActorsMatch [actorA, actorA] [actorA, actorB] = true ∧
    rulesetsMatch rulesetActualC10 rulesetExpectedC10 = true ∧
    [actorA, actorA].length = [actorA, actorB].length ∧
    decide ((⟦[actorA, actorA]⟧ : Multiset BypassActor) = ⟦[actorA, actorB]⟧) = false ∧
    [actorA, actorB].contains actorB = true ∧
    [actorA, actorA].contains actorB = false := by
  refine ⟨?_, ?_, ?_, ?_, ?_, ?_⟩ <;> decide

end Repolint
